import Mathlib

/-
Verification of the WebRTC session-lifecycle manager (WebRTCManager).

The manager is single-threaded and event-driven: every mutation of its
state happens inside a method body or a callback (timer fire, signalling
answer).  We embed each method as a pure function from the manager state
to a new state paired with the list of effects the body emits towards the
signaller and the timer queue (requests sent, timers scheduled, parsers
registered).  Asynchronous callbacks (the setTimeout bodies, the
available-streams answer, the consumer-id answer, the session-id answer)
are embedded as their own functions, invoked by an explicit event model
where the temporal claims need one.
-/

namespace Cockpit

/-- A catalog entry describing a remote media producer. -/
structure Stream where
  id : String
  name : String
deriving DecidableEq

/-- The data the manager keeps about the one live Session object:
its session id and the stream it was created for. -/
structure SessionInfo where
  id : String
  stream : Stream
deriving DecidableEq

/-- Effects a method body emits towards the signaller, the session and the
timer queue.  The two parse effects record the consumer id exactly as the
code passes it (the TypeScript non-null assertion is a cast, not a check,
so an undefined consumer id flows through unchanged). -/
inductive Effect where
  | requestStreams
  | requestConsumerId
  | requestSessionId (consumerId : String) (streamId : String)
  | parseAvailableStreamsAnswer
  | scheduleStreamsTimer
  | scheduleSessionTimer
  | parseEndSessionQuestion (consumerId : Option String) (producerId sessionId : String)
  | parseNegotiation (consumerId : Option String) (producerId sessionId : String)
  | signallerEnd (reason : String)
  | sessionEnd (sessionId : String)
deriving DecidableEq

/-- The mutable fields of the WebRTCManager object. -/
structure ManagerState where
  availableStreams : List Stream
  signallerStatus : String
  streamStatus : String
  consumerId : Option String
  streamName : Option String
  session : Option SessionInfo
  hasEnded : Bool
  waitingForAvailableStreamsAnswer : Bool
  waitingForSessionStart : Bool
deriving DecidableEq

/-- The state of a freshly constructed manager. -/
def initialState : ManagerState :=
  { availableStreams := []
    signallerStatus := "waiting..."
    streamStatus := "waiting..."
    consumerId := none
    streamName := none
    session := none
    hasEnded := false
    waitingForAvailableStreamsAnswer := false
    waitingForSessionStart := false }

/-- String interpolation of a possibly-undefined value, as template
literals render it. -/
def optStr : Option String → String
  | none => "undefined"
  | some x => x

/-- The status text written by the update methods: the message followed by
the current time in parentheses. -/
def stamp (time newStatus : String) : String :=
  newStatus ++ " (" ++ time ++ ")"

/-- updateStreamStatus: replace the stream status with a timestamped
message. -/
def updateStreamStatus (time newStatus : String) (s : ManagerState) : ManagerState :=
  { s with streamStatus := stamp time newStatus }

/-- updateSignallerStatus: replace the signaller status with a timestamped
message. -/
def updateSignallerStatus (time newStatus : String) (s : ManagerState) : ManagerState :=
  { s with signallerStatus := stamp time newStatus }

/-- stopSession: if no session exists, return silently; otherwise report,
end the session, drop the reference and set the ended flag. -/
def stopSession (time reason : String) (s : ManagerState) : ManagerState × List Effect :=
  match s.session with
  | none => (s, [])
  | some sess =>
    let s1 := updateStreamStatus time
      ("Stopping session " ++ sess.id ++ ". Reason: " ++ reason) s
    ({ s1 with session := none, hasEnded := true }, [Effect.sessionEnd sess.id])

/-- close: stop the session, end the signaller, set the ended flag. -/
def close (time reason : String) (s : ManagerState) : ManagerState × List Effect :=
  let r := stopSession time reason s
  ({ r.1 with hasEnded := true }, r.2 ++ [Effect.signallerEnd reason])

/-- startSession: guarded by the in-flight flag; when clear, set it and
schedule the session timer. -/
def startSession (s : ManagerState) : ManagerState × List Effect :=
  if s.waitingForSessionStart then (s, [])
  else ({ s with waitingForSessionStart := true }, [Effect.scheduleSessionTimer])

/-- updateStreamsAvailable: if already waiting for an answer, re-issue the
streams request and return; if ended, clear the waiting flag and stop;
otherwise set the waiting flag and schedule the streams timer. -/
def updateStreamsAvailable (s : ManagerState) : ManagerState × List Effect :=
  if s.waitingForAvailableStreamsAnswer then (s, [Effect.requestStreams])
  else if s.hasEnded then
    ({ s with waitingForAvailableStreamsAnswer := false }, [])
  else
    ({ s with waitingForAvailableStreamsAnswer := true }, [Effect.scheduleStreamsTimer])

/-- startConsumer: clear the ended flag, request a consumer id when none is
held, reset the catalog and restart discovery. -/
def startConsumer (s : ManagerState) : ManagerState × List Effect :=
  let s1 : ManagerState := { s with hasEnded := false }
  let e1 : List Effect :=
    if s1.consumerId = none then [Effect.requestConsumerId] else []
  let s2 : ManagerState := { s1 with availableStreams := [] }
  let r := updateStreamsAvailable s2
  (r.1, e1 ++ r.2)

/-- The callback the manager hands to requestConsumerId: store the new
consumer id. -/
def onConsumerIdReceived (newConsumerId : String) (s : ManagerState) : ManagerState :=
  { s with consumerId := some newConsumerId }

/-- The body of the setTimeout scheduled by updateStreamsAvailable: when
the waiting flag is still set, register the answer parser and issue the
streams request. -/
def streamsTimerFired (s : ManagerState) : ManagerState × List Effect :=
  if s.waitingForAvailableStreamsAnswer then
    (s, [Effect.parseAvailableStreamsAnswer, Effect.requestStreams])
  else (s, [])

/-- The available-streams answer callback: ignored unless the waiting flag
is set; otherwise clear the flag, store the catalog and re-enter
updateStreamsAvailable. -/
def onAvailableStreams (streams : List Stream) (s : ManagerState) : ManagerState × List Effect :=
  if s.waitingForAvailableStreamsAnswer then
    let s1 : ManagerState :=
      { s with waitingForAvailableStreamsAnswer := false, availableStreams := streams }
    updateStreamsAvailable s1
  else (s, [])

/-- requestSession: issue the session-id request and clear the ended
flag. -/
def requestSession (stream : Stream) (consumerId : String) (s : ManagerState) :
    ManagerState × List Effect :=
  ({ s with hasEnded := false }, [Effect.requestSessionId consumerId stream.id])

/-- The predicate the session-request loop uses to look the desired source
up in the catalog: it compares the stored stream name with the catalog
entry name. -/
def matchesDesired (s : ManagerState) (st : Stream) : Bool :=
  s.streamName = some st.name

/-- The status message for a desired source missing from the catalog. -/
def notFoundError (name : Option String) : String :=
  "Failed to start a new Session with \"" ++ optStr name ++ "\". Reason: not available"

/-- The status message announcing a session start. -/
def startingMsg (stream : Stream) (name : Option String) : String :=
  "Starting session with producer \"" ++ stream.id ++ "\" (\"" ++ optStr name ++ "\")"

/-- The status message for a session attempt without a consumer id. -/
def noConsumerError (stream : Stream) (name : Option String) : String :=
  "Failed to start a new Session with producer\"" ++ stream.id ++ "\" (\"" ++
    optStr name ++ "\"). Reason: undefined consumerId"

/-- The body of the setTimeout scheduled by startSession: when the
in-flight flag is still set, look the desired source up by name; on a miss
report, clear the flag and re-enter startSession; on a hit report, and
either re-register and retry when the consumer id is missing, or issue the
session request and clear the flag. -/
def sessionTimerFired (time : String) (s : ManagerState) : ManagerState × List Effect :=
  if s.waitingForSessionStart then
    match s.availableStreams.find? (matchesDesired s) with
    | none =>
      let s1 := updateStreamStatus time (notFoundError s.streamName) s
      let s2 : ManagerState := { s1 with waitingForSessionStart := false }
      startSession s2
    | some stream =>
      let s1 := updateStreamStatus time (startingMsg stream s.streamName) s
      match s1.consumerId with
      | none =>
        let s2 := updateStreamStatus time (noConsumerError stream s1.streamName) s1
        let r1 := startConsumer s2
        let r2 := startSession r1.1
        (r2.1, r1.2 ++ r2.2)
      | some cid =>
        let r := requestSession stream cid s1
        ({ r.1 with waitingForSessionStart := false }, r.2)
  else (s, [])

/-- onSessionClosed: stop the session, clear the consumer id, then restart
the consumer and the session-request loop. -/
def onSessionClosed (time reason : String) (s : ManagerState) : ManagerState × List Effect :=
  let r1 := stopSession time reason s
  let s1 : ManagerState := { r1.1 with consumerId := none }
  let r2 := startConsumer s1
  let r3 := startSession r2.1
  (r3.1, r1.2 ++ r2.2 ++ r3.2)

/-- onSessionIdReceived: create the Session object for the received id,
register the end-session and negotiation parsers, and report success. -/
def onSessionIdReceived (time : String) (stream : Stream)
    (producerId receivedSessionId : String) (s : ManagerState) :
    ManagerState × List Effect :=
  let s1 : ManagerState := { s with session := some { id := receivedSessionId, stream := stream } }
  let s2 := updateStreamStatus time ("Session " ++ receivedSessionId ++ " successfully started") s1
  (s2, [Effect.parseEndSessionQuestion s.consumerId producerId receivedSessionId,
        Effect.parseNegotiation s.consumerId producerId receivedSessionId])

/-- The end-session parser callback registered in onSessionIdReceived:
drop the session reference and set the ended flag. -/
def onEndSessionReceived (s : ManagerState) : ManagerState :=
  { s with session := none, hasEnded := true }

/-- The watch callback installed by startStream on the desired-source
signal: return when the id did not change; otherwise stop the session if
an old stream was selected, and store the new name and start a session if
a new stream is selected. -/
def onSelectedStreamChanged (time : String) (newStream oldStream : Option Stream)
    (s : ManagerState) : ManagerState × List Effect :=
  if newStream.map Stream.id = oldStream.map Stream.id then (s, [])
  else
    let msg := "Selected stream changed from \"" ++ optStr (oldStream.map Stream.id) ++
      "\" to \"" ++ optStr (newStream.map Stream.id) ++ "\"."
    let r1 := match oldStream with
      | none => (s, ([] : List Effect))
      | some _ => stopSession time msg s
    match newStream with
    | none => r1
    | some ns =>
      let s2 : ManagerState := { r1.1 with streamName := some ns.name }
      let r2 := startSession s2
      (r2.1, r1.2 ++ r2.2)

/-!
Event model for the discovery poll loop.  The environment delivers the
events the first invariant quantifies over: a streams-timer firing, an
available-streams answer arriving, and a close of the manager.  The world
tracks, besides the manager state, how many streams timers are pending and
how many streams requests are outstanding (sent and unanswered).  A timer
can fire only when one is pending; an answer can arrive only when a
request is outstanding.
-/

/-- The environment state for the discovery loop: the manager plus the
number of pending streams timers and of outstanding streams requests. -/
structure DiscoveryWorld where
  mgr : ManagerState
  timers : Nat
  inFlight : Nat
deriving DecidableEq

/-- Events delivered to the discovery loop: a streams-timer firing, an
available-streams answer, or a close of the manager. -/
inductive DEvent where
  | timerFire
  | answer (streams : List Stream)
  | closeEvt (time reason : String)
deriving DecidableEq

/-- Streams timers scheduled by an effect list. -/
def countStreamsTimers (es : List Effect) : Nat :=
  es.countP (fun e => e == Effect.scheduleStreamsTimer)

/-- Streams requests issued by an effect list. -/
def countStreamsRequests (es : List Effect) : Nat :=
  es.countP (fun e => e == Effect.requestStreams)

/-- One environment step: run the corresponding callback on the manager
and update the timer and request bookkeeping from the effects it emits. -/
def dstep : DEvent → DiscoveryWorld → Option DiscoveryWorld
  | DEvent.timerFire, w =>
    if w.timers = 0 then none
    else
      let r := streamsTimerFired w.mgr
      some { mgr := r.1
             timers := w.timers - 1 + countStreamsTimers r.2
             inFlight := w.inFlight + countStreamsRequests r.2 }
  | DEvent.answer streams, w =>
    if w.inFlight = 0 then none
    else
      let r := onAvailableStreams streams w.mgr
      some { mgr := r.1
             timers := w.timers + countStreamsTimers r.2
             inFlight := w.inFlight - 1 + countStreamsRequests r.2 }
  | DEvent.closeEvt time reason, w =>
      let r := close time reason w.mgr
      some { mgr := r.1
             timers := w.timers + countStreamsTimers r.2
             inFlight := w.inFlight + countStreamsRequests r.2 }

/-- Run a sequence of discovery events. -/
def drun : List DEvent → DiscoveryWorld → Option DiscoveryWorld
  | [], w => some w
  | e :: es, w =>
    match dstep e w with
    | none => none
    | some w2 => drun es w2

/-- The world right after the signaller opens and the manager runs
startConsumer on the initial state. -/
def initialDiscoveryWorld : DiscoveryWorld :=
  { mgr := (startConsumer initialState).1
    timers := countStreamsTimers (startConsumer initialState).2
    inFlight := countStreamsRequests (startConsumer initialState).2 }

/-- The inductive invariant of the discovery loop: at any moment at most
one streams request is outstanding or streams timer pending, combined. -/
def DiscoveryInv (w : DiscoveryWorld) : Prop :=
  w.inFlight + w.timers ≤ 1

lemma countStreamsTimers_nil : countStreamsTimers [] = 0 := rfl

lemma countStreamsRequests_nil : countStreamsRequests [] = 0 := rfl

/-- The discovery invariant is preserved by every environment step. -/
lemma dstep_preserves (e : DEvent) (w w2 : DiscoveryWorld)
    (hInv : DiscoveryInv w) (h : dstep e w = some w2) : DiscoveryInv w2 := by
  simp only [DiscoveryInv] at hInv ⊢
  cases e with
  | timerFire =>
    by_cases ht : w.timers = 0
    · simp [dstep, ht] at h
    · cases hw : w.mgr.waitingForAvailableStreamsAnswer with
      | false =>
        simp [dstep, ht, streamsTimerFired, hw, countStreamsTimers,
          countStreamsRequests] at h
        rw [← h]
        dsimp only
        omega
      | true =>
        simp [dstep, ht, streamsTimerFired, hw, countStreamsTimers,
          countStreamsRequests, List.countP_cons, List.countP_nil] at h
        rw [← h]
        dsimp only
        omega
  | answer streams =>
    by_cases hf : w.inFlight = 0
    · simp [dstep, hf] at h
    · cases hw : w.mgr.waitingForAvailableStreamsAnswer with
      | false =>
        simp [dstep, hf, onAvailableStreams, hw, countStreamsTimers,
          countStreamsRequests] at h
        rw [← h]
        dsimp only
        omega
      | true =>
        cases he : w.mgr.hasEnded with
        | false =>
          simp [dstep, hf, onAvailableStreams, hw, updateStreamsAvailable, he,
            countStreamsTimers, countStreamsRequests, List.countP_cons,
            List.countP_nil] at h
          rw [← h]
          dsimp only
          omega
        | true =>
          simp [dstep, hf, onAvailableStreams, hw, updateStreamsAvailable, he,
            countStreamsTimers, countStreamsRequests] at h
          rw [← h]
          dsimp only
          omega
  | closeEvt time reason =>
    cases hs : w.mgr.session with
    | none =>
      simp [dstep, close, stopSession, hs, countStreamsTimers,
        countStreamsRequests, List.countP_cons, List.countP_nil] at h
      rw [← h]
      dsimp only
      omega
    | some sess =>
      simp [dstep, close, stopSession, hs, updateStreamStatus, countStreamsTimers,
        countStreamsRequests, List.countP_cons, List.countP_nil] at h
      rw [← h]
      dsimp only
      omega

/-- The discovery invariant is preserved by every event sequence. -/
lemma drun_preserves (evs : List DEvent) (w w2 : DiscoveryWorld)
    (hInv : DiscoveryInv w) (h : drun evs w = some w2) : DiscoveryInv w2 := by
  induction evs generalizing w with
  | nil => simp only [drun, Option.some.injEq] at h; rw [← h]; exact hInv
  | cons e es ih =>
    simp only [drun] at h
    cases hstep : dstep e w with
    | none => rw [hstep] at h; simp at h
    | some w1 =>
      rw [hstep] at h
      exact ih w1 (dstep_preserves e w w1 hInv hstep) h

/-- C1: for every sequence of discovery answers, timer firings and closes
starting from the freshly started manager, at most one source-list
(requestStreams) request is outstanding at any time. -/
theorem c1_single_source_list_request (evs : List DEvent) (w : DiscoveryWorld)
    (h : drun evs initialDiscoveryWorld = some w) : w.inFlight ≤ 1 := by
  have hInit : DiscoveryInv initialDiscoveryWorld := by
    simp only [DiscoveryInv]
    decide
  have hw := drun_preserves evs initialDiscoveryWorld w hInit h
  simp only [DiscoveryInv] at hw
  omega

/-- The world reached from the initial one by letting the first streams
timer fire: one request outstanding, no timer pending. -/
def c1TraceWorld : DiscoveryWorld :=
  { mgr := { availableStreams := []
             signallerStatus := "waiting..."
             streamStatus := "waiting..."
             consumerId := none
             streamName := none
             session := none
             hasEnded := false
             waitingForAvailableStreamsAnswer := true
             waitingForSessionStart := false }
    timers := 0
    inFlight := 1 }

/-- Witness for C1 on the concrete one-event trace. -/
theorem c1_single_source_list_request_witness : c1TraceWorld.inFlight ≤ 1 :=
  c1_single_source_list_request [DEvent.timerFire] c1TraceWorld (by decide)

/-- The stream the pending session request of scenario C was issued for. -/
def staleStream : Stream := { id := "p1", name := "cam" }

/-- A manager state in which the caller has meanwhile selected the source
named cam2. -/
def staleState : ManagerState :=
  { initialState with streamName := some "cam2", consumerId := some "A1" }

/-- C3 counterexample: the desired source is cam2, the resolving session
request was for the stream named cam, and onSessionIdReceived nevertheless
creates a Session object for the stale session id: the result is not
discarded. -/
theorem c3_stale_result_counterexample :
    staleState.streamName = some "cam2" ∧
    staleStream.name ≠ "cam2" ∧
    (onSessionIdReceived "10:00:00" staleStream "p1" "S1" staleState).1.session =
      some { id := "S1", stream := staleStream } := by
  refine ⟨rfl, by decide, rfl⟩

/-- C3 amended: when a pending session request resolves, its completion is
not compared against the current desired source; onSessionIdReceived
creates a Session object for the received session id unconditionally, even
when the desired source no longer matches. -/
theorem c3_amended_session_created_unconditionally (time : String) (stream : Stream)
    (producerId receivedSessionId : String) (s : ManagerState) :
    (onSessionIdReceived time stream producerId receivedSessionId s).1.session =
      some { id := receivedSessionId, stream := stream } := rfl

/-- C9: close is idempotent: after a first close the session reference is
gone and the ended flag set, a second close leaves the whole manager state
unchanged, and a second stopSession returns the state unchanged with no
effects and no status rewrite. -/
theorem c9_close_idempotent (t1 r1 t2 r2 : String) (s : ManagerState) :
    (close t1 r1 s).1.session = none ∧
    (close t1 r1 s).1.hasEnded = true ∧
    (close t2 r2 (close t1 r1 s).1).1 = (close t1 r1 s).1 ∧
    stopSession t2 r2 (close t1 r1 s).1 = ((close t1 r1 s).1, []) := by
  cases s with
  | mk av sig st cid sn sess he w1 w2 =>
    cases sess <;> simp [close, stopSession, updateStreamStatus]

/-- C10: when the desired-source signal changes to a stream with the same
id as before, the watch callback returns at once: the state is unchanged
and no effect is emitted. -/
theorem c10_same_id_frame (time : String) (newStream oldStream : Option Stream)
    (s : ManagerState) (h : newStream.map Stream.id = oldStream.map Stream.id) :
    onSelectedStreamChanged time newStream oldStream s = (s, []) := by
  simp [onSelectedStreamChanged, h]

/-- Witness for C10: same id p1 under two different names. -/
theorem c10_same_id_frame_witness :
    onSelectedStreamChanged "10:00:00" (some { id := "p1", name := "cam2" })
      (some { id := "p1", name := "cam" }) initialState = (initialState, []) :=
  c10_same_id_frame "10:00:00" (some { id := "p1", name := "cam2" })
    (some { id := "p1", name := "cam" }) initialState (by decide)

/-- A manager state with a pending session-request timer for the source
named cam, which is present in the catalog, and a registered consumer. -/
def c2State : ManagerState :=
  { initialState with
    streamName := some "cam"
    availableStreams := [{ id := "p1", name := "cam" }]
    consumerId := some "A1"
    waitingForSessionStart := true }

/-- The same manager right after close ran. -/
def c2Closed : ManagerState := (close "10:00:00" "shutdown" c2State).1

/-- C2 counterexample: after close has set the ended flag, the pending
session-request timer still runs to completion and issues a session
request (a session-request side effect after close), because the
session-request loop never consults hasEnded. -/
theorem c2_close_counterexample :
    c2Closed.hasEnded = true ∧
    (sessionTimerFired "10:00:01" c2Closed).2 = [Effect.requestSessionId "A1" "p1"] ∧
    (sessionTimerFired "10:00:01" c2Closed).1.hasEnded = false := by
  refine ⟨rfl, by decide, by decide⟩

/-- C2 amended: close sets the terminal ended flag, and the discovery poll
loop checks it before each reschedule and stops silently (the answer
callback emits no further request or timer and clears the waiting flag,
and the timer callback never schedules a new timer); the session-request
loop, however, does not check the flag: a still-pending session-request
timer runs its body and always emits further effects. -/
theorem c2_amended_ended_flag (time reason t2 : String) (streams : List Stream)
    (s u : ManagerState) (hu : u.hasEnded = true) :
    (close time reason s).1.hasEnded = true ∧
    (onAvailableStreams streams u).2 = [] ∧
    (onAvailableStreams streams u).1.waitingForAvailableStreamsAnswer = false ∧
    (∀ x, Effect.scheduleStreamsTimer ∉ (streamsTimerFired x).2) ∧
    (∀ v, v.hasEnded = true → v.waitingForSessionStart = true →
      (sessionTimerFired t2 v).2 ≠ []) := by
  refine ⟨?_, ?_, ?_, ?_, ?_⟩
  · cases s with
    | mk av sig st cid sn sess he w1 w2 => cases sess <;> simp [close, stopSession]
  · cases hw : u.waitingForAvailableStreamsAnswer <;>
      simp [onAvailableStreams, hw, updateStreamsAvailable, hu]
  · cases hw : u.waitingForAvailableStreamsAnswer <;>
      simp [onAvailableStreams, hw, updateStreamsAvailable, hu]
  · intro x
    cases hw : x.waitingForAvailableStreamsAnswer <;> simp [streamsTimerFired, hw]
  · intro v _ hws
    cases hfind : v.availableStreams.find? (matchesDesired v) with
    | none => simp [sessionTimerFired, hws, hfind, startSession, updateStreamStatus]
    | some stream =>
      cases hcid : v.consumerId with
      | none =>
        simp [sessionTimerFired, hws, hfind, updateStreamStatus, hcid, startConsumer,
          startSession, updateStreamsAvailable]
      | some cid =>
        simp [sessionTimerFired, hws, hfind, updateStreamStatus, hcid, requestSession]

/-- Witness for C2 amended, at the closed manager above. -/
theorem c2_amended_ended_flag_witness :
    (close "10:00:00" "shutdown" initialState).1.hasEnded = true ∧
    (onAvailableStreams [] c2Closed).2 = [] ∧
    (onAvailableStreams [] c2Closed).1.waitingForAvailableStreamsAnswer = false ∧
    (∀ x, Effect.scheduleStreamsTimer ∉ (streamsTimerFired x).2) ∧
    (∀ v, v.hasEnded = true → v.waitingForSessionStart = true →
      (sessionTimerFired "10:00:01" v).2 ≠ []) :=
  c2_amended_ended_flag "10:00:00" "shutdown" "10:00:01" [] initialState c2Closed rfl

/-- A manager state in which the session-request timer is pending, the
desired source cam is in the catalog, but no consumer id is held. -/
def c4State : ManagerState :=
  { initialState with
    streamName := some "cam"
    availableStreams := [{ id := "p1", name := "cam" }]
    waitingForSessionStart := true }

/-- C4 at the failing input: when the session-request timer fires with an
undefined consumerId, the body re-registers (requestConsumerId is emitted)
but leaves waitingForSessionStart set, so the retry call to startSession
is swallowed by the guard: no session timer is rescheduled, no session
request is emitted, and every later startSession call, even after a
consumer id has been received, is a no-op.  The request attempt is never
re-entered, against both the claim and the intent visible in the sibling
branch, which clears the flag before retrying. -/
theorem c4_consumer_retry_never_reentered :
    c4State.consumerId = none ∧
    (sessionTimerFired "10:00:00" c4State).2 =
      [Effect.requestConsumerId, Effect.scheduleStreamsTimer] ∧
    (sessionTimerFired "10:00:00" c4State).1.waitingForSessionStart = true ∧
    startSession (sessionTimerFired "10:00:00" c4State).1 =
      ((sessionTimerFired "10:00:00" c4State).1, []) ∧
    startSession (onConsumerIdReceived "A1" (sessionTimerFired "10:00:00" c4State).1) =
      (onConsumerIdReceived "A1" (sessionTimerFired "10:00:00" c4State).1, []) := by
  refine ⟨rfl, by decide, by decide, by decide, by decide⟩

/-- C7: when the session-request timer fires and the desired source name
is not in the catalog, no session request is issued; the body logs the
miss to the stream status, clears the in-flight flag and re-enters
startSession, which schedules a fresh timer, so the loop retries instead
of failing permanently. -/
theorem c7_missing_source_reschedules (time : String) (s : ManagerState)
    (hws : s.waitingForSessionStart = true)
    (hfind : s.availableStreams.find? (matchesDesired s) = none) :
    (sessionTimerFired time s).2 = [Effect.scheduleSessionTimer] ∧
    (sessionTimerFired time s).1.waitingForSessionStart = true ∧
    (sessionTimerFired time s).1.streamStatus = stamp time (notFoundError s.streamName) := by
  simp [sessionTimerFired, hws, hfind, startSession, updateStreamStatus]

/-- A manager state whose pending session request targets a source absent
from the catalog. -/
def c7State : ManagerState :=
  { initialState with streamName := some "cam", waitingForSessionStart := true }

/-- Witness for C7 at the concrete state above. -/
theorem c7_missing_source_reschedules_witness :
    (sessionTimerFired "10:00:00" c7State).2 = [Effect.scheduleSessionTimer] ∧
    (sessionTimerFired "10:00:00" c7State).1.waitingForSessionStart = true ∧
    (sessionTimerFired "10:00:00" c7State).1.streamStatus =
      stamp "10:00:00" (notFoundError c7State.streamName) :=
  c7_missing_source_reschedules "10:00:00" c7State rfl rfl

/-- C5: when the session underlying an active stream is closed,
onSessionClosed drops the Session reference, clears the consumer id, and
re-enters the register, discover, request chain: it requests a new
consumer id, restarts the discovery loop and restarts the session-request
loop, with the selected stream name left unchanged. -/
theorem c5_session_closed_recovery (time reason : String) (s : ManagerState)
    (sess : SessionInfo) (hs : s.session = some sess)
    (hw1 : s.waitingForAvailableStreamsAnswer = false)
    (hw2 : s.waitingForSessionStart = false) :
    (onSessionClosed time reason s).1.session = none ∧
    (onSessionClosed time reason s).1.consumerId = none ∧
    (onSessionClosed time reason s).1.streamName = s.streamName ∧
    (onSessionClosed time reason s).2 =
      [Effect.sessionEnd sess.id, Effect.requestConsumerId,
       Effect.scheduleStreamsTimer, Effect.scheduleSessionTimer] := by
  cases s with
  | mk av sig st cid sn sess0 he w1 w2 =>
    simp only at hs hw1 hw2
    subst hs hw1 hw2
    simp [onSessionClosed, stopSession, startConsumer, updateStreamsAvailable,
      startSession, updateStreamStatus]

/-- An active session with id S1 for the stream named cam, with both loop
flags clear. -/
def c5State : ManagerState :=
  { initialState with
    streamName := some "cam"
    consumerId := some "A1"
    session := some { id := "S1", stream := { id := "p1", name := "cam" } } }

/-- Witness for C5 at the active session above. -/
theorem c5_session_closed_recovery_witness :
    (onSessionClosed "10:00:00" "transport failure" c5State).1.session = none ∧
    (onSessionClosed "10:00:00" "transport failure" c5State).1.consumerId = none ∧
    (onSessionClosed "10:00:00" "transport failure" c5State).1.streamName =
      c5State.streamName ∧
    (onSessionClosed "10:00:00" "transport failure" c5State).2 =
      [Effect.sessionEnd "S1", Effect.requestConsumerId,
       Effect.scheduleStreamsTimer, Effect.scheduleSessionTimer] :=
  c5_session_closed_recovery "10:00:00" "transport failure" c5State
    { id := "S1", stream := { id := "p1", name := "cam" } } rfl rfl rfl

/-- C6: when the desired-source signal changes to a stream whose id
differs from the previous one, the current session is stopped (its end
effect is emitted and the reference dropped), the new stream name is
recorded and a session request begins; and the session-request loop
matches the desired source against the catalog purely by name: the lookup
predicate forces the name to coincide and is insensitive to the id. -/
theorem c6_selection_change (time : String) (n o : Stream) (sess : SessionInfo)
    (s : ManagerState) (hid : n.id ≠ o.id)
    (hsess : s.session = some sess)
    (hws : s.waitingForSessionStart = false) :
    (onSelectedStreamChanged time (some n) (some o) s).1.session = none ∧
    Effect.sessionEnd sess.id ∈ (onSelectedStreamChanged time (some n) (some o) s).2 ∧
    (onSelectedStreamChanged time (some n) (some o) s).1.streamName = some n.name ∧
    Effect.scheduleSessionTimer ∈ (onSelectedStreamChanged time (some n) (some o) s).2 ∧
    (∀ (u : ManagerState) (st : Stream),
      u.availableStreams.find? (matchesDesired u) = some st →
      u.streamName = some st.name) ∧
    (∀ (u : ManagerState) (a b : Stream),
      a.name = b.name → matchesDesired u a = matchesDesired u b) := by
  refine ⟨?_, ?_, ?_, ?_, ?_, ?_⟩
  · cases s with
    | mk av sig st cid sn sess0 he w1 w2 =>
      simp only at hsess hws
      subst hsess hws
      simp [onSelectedStreamChanged, hid, stopSession, startSession, updateStreamStatus]
  · cases s with
    | mk av sig st cid sn sess0 he w1 w2 =>
      simp only at hsess hws
      subst hsess hws
      simp [onSelectedStreamChanged, hid, stopSession, startSession, updateStreamStatus]
  · cases s with
    | mk av sig st cid sn sess0 he w1 w2 =>
      simp only at hsess hws
      subst hsess hws
      simp [onSelectedStreamChanged, hid, stopSession, startSession, updateStreamStatus]
  · cases s with
    | mk av sig st cid sn sess0 he w1 w2 =>
      simp only at hsess hws
      subst hsess hws
      simp [onSelectedStreamChanged, hid, stopSession, startSession, updateStreamStatus]
  · intro u st hfind
    have hp := List.find?_some hfind
    simpa [matchesDesired] using hp
  · intro u a b hname
    simp [matchesDesired, hname]

/-- Witness for C6: selection moves from cam on p1 to cam2 on p2 while the
session S1 is active. -/
theorem c6_selection_change_witness :
    (onSelectedStreamChanged "10:00:00" (some { id := "p2", name := "cam2" })
      (some { id := "p1", name := "cam" }) c5State).1.session = none ∧
    Effect.sessionEnd "S1" ∈ (onSelectedStreamChanged "10:00:00"
      (some { id := "p2", name := "cam2" })
      (some { id := "p1", name := "cam" }) c5State).2 ∧
    (onSelectedStreamChanged "10:00:00" (some { id := "p2", name := "cam2" })
      (some { id := "p1", name := "cam" }) c5State).1.streamName = some "cam2" ∧
    Effect.scheduleSessionTimer ∈ (onSelectedStreamChanged "10:00:00"
      (some { id := "p2", name := "cam2" })
      (some { id := "p1", name := "cam" }) c5State).2 ∧
    (∀ (u : ManagerState) (st : Stream),
      u.availableStreams.find? (matchesDesired u) = some st →
      u.streamName = some st.name) ∧
    (∀ (u : ManagerState) (a b : Stream),
      a.name = b.name → matchesDesired u a = matchesDesired u b) :=
  c6_selection_change "10:00:00" { id := "p2", name := "cam2" }
    { id := "p1", name := "cam" } { id := "S1", stream := { id := "p1", name := "cam" } }
    c5State (by decide) rfl rfl

/-- Modelled from the spec: the Signaller and its status reporting are not
among the source files here; the spec says the signalling channel reports
its status transitions through the status callbacks handed to it, and the
manager passes updateStreamStatus to requestConsumerId and
updateSignallerStatus to the Signaller it constructs.  A completed
registration is therefore accompanied by a stream-status report. -/
def registrationReported (time status newConsumerId : String) (s : ManagerState) :
    ManagerState :=
  onConsumerIdReceived newConsumerId (updateStreamStatus time status s)

/-- Modelled from the spec: ending the Signaller during close makes the
channel report its closed status through the signaller-status callback. -/
def closeReported (time status reason : String) (s : ManagerState) :
    ManagerState × List Effect :=
  let r := close time reason s
  (updateSignallerStatus time status r.1, r.2)

/-- A status text written at the given time: some message followed by the
time in parentheses. -/
def StampedAt (time msg : String) : Prop :=
  ∃ body, msg = stamp time body

/-- C8: every listed manager transition updates at least one of the two
status observables, and every status update writes a timestamped message:
the two update methods always stamp; session start, session stop on a live
session, and both session-request failure branches rewrite the stream
status; registration and close (with the spec-modelled signaller status
reporting) rewrite a status as well. -/
theorem c8_transitions_update_status :
    (∀ time newStatus s, StampedAt time (updateStreamStatus time newStatus s).streamStatus) ∧
    (∀ time newStatus s,
      StampedAt time (updateSignallerStatus time newStatus s).signallerStatus) ∧
    (∀ time stream producerId sid s,
      StampedAt time (onSessionIdReceived time stream producerId sid s).1.streamStatus) ∧
    (∀ time reason s sess, s.session = some sess →
      StampedAt time (stopSession time reason s).1.streamStatus) ∧
    (∀ time s, s.waitingForSessionStart = true →
      s.availableStreams.find? (matchesDesired s) = none →
      StampedAt time (sessionTimerFired time s).1.streamStatus) ∧
    (∀ time s st, s.waitingForSessionStart = true →
      s.availableStreams.find? (matchesDesired s) = some st →
      s.consumerId = none →
      StampedAt time (sessionTimerFired time s).1.streamStatus) ∧
    (∀ time status newConsumerId s,
      StampedAt time (registrationReported time status newConsumerId s).streamStatus) ∧
    (∀ time status reason s,
      StampedAt time (closeReported time status reason s).1.signallerStatus) := by
  refine ⟨?_, ?_, ?_, ?_, ?_, ?_, ?_, ?_⟩
  · intro time newStatus s
    exact ⟨newStatus, rfl⟩
  · intro time newStatus s
    exact ⟨newStatus, rfl⟩
  · intro time stream producerId sid s
    exact ⟨"Session " ++ sid ++ " successfully started", rfl⟩
  · intro time reason s sess hs
    refine ⟨"Stopping session " ++ sess.id ++ ". Reason: " ++ reason, ?_⟩
    simp [stopSession, hs, updateStreamStatus]
  · intro time s hws hfind
    refine ⟨notFoundError s.streamName, ?_⟩
    simp [sessionTimerFired, hws, hfind, startSession, updateStreamStatus]
  · intro time s st hws hfind hcid
    refine ⟨noConsumerError st s.streamName, ?_⟩
    cases hwa : s.waitingForAvailableStreamsAnswer <;>
      simp [sessionTimerFired, hws, hfind, hcid, hwa, updateStreamStatus, startConsumer,
        updateStreamsAvailable, startSession]
  · intro time status newConsumerId s
    exact ⟨status, rfl⟩
  · intro time status reason s
    exact ⟨status, rfl⟩

/-- Witness for C8: the session-stop conjunct at the live session S1. -/
theorem c8_transitions_update_status_witness :
    c5State.session = some { id := "S1", stream := { id := "p1", name := "cam" } } ∧
    StampedAt "10:00:00" (stopSession "10:00:00" "selection changed" c5State).1.streamStatus :=
  ⟨rfl, c8_transitions_update_status.2.2.2.1 "10:00:00" "selection changed" c5State
    { id := "S1", stream := { id := "p1", name := "cam" } } rfl⟩

end Cockpit
